import Mathlib

/-!
# Verification of the POS core engine (`pos0.py`)

A shallow embedding of the persistent-state core of the point-of-sale
application: the product/sale/customer collections held in the SQLite
database and the operations that read and mutate them
(`add_product`, `adjust_stock`, `delete_product`, `record_sale`,
`add_customer`, `process_return`, `get_sales_summary`,
`get_avg_sale_value`).

Modelling conventions:
- SQL REAL columns (`price`, `total`, `discount`) are modelled as `ℚ`;
  INTEGER columns as `Int`/`Nat`; TEXT as `String`.
- Each table is a list of rows in insertion (rowid) order; AUTOINCREMENT
  ids are modelled by `next_*` counters in the state.
- `datetime.now()` is passed in as an explicit `String` parameter
  wherever the source calls it.
- Python exceptions that escape a function are modelled explicitly: in
  `record_sale` the cursor is created without a `row_factory`, so
  `fetchone()` yields a plain tuple (or `None`) and the subscript
  `result["stock"]` raises `TypeError`; the `except` handler then
  evaluates `traceback.format_exc()` although the module never imports
  `traceback`, raising `NameError`.  Both are represented by `PyExc`.
-/

structure Product where
  id : Nat
  name : String
  price : ℚ
  stock : Int
  category : String
  barcode : String
deriving DecidableEq, Repr

structure Sale where
  id : Nat
  product_id : Nat
  quantity : Int
  total : ℚ
  discount : ℚ
  date : String
  staff_id : Nat
  payment_method : String
  customer_id : Option Nat
deriving DecidableEq, Repr

structure Customer where
  id : Nat
  name : String
  email : String
  points : Int
  age : Option Int
deriving DecidableEq, Repr

/-- The persistent store: the `products`, `sales` and `customers` tables
(in rowid order) together with the AUTOINCREMENT counters. -/
structure State where
  products : List Product
  sales : List Sale
  customers : List Customer
  next_product_id : Nat
  next_sale_id : Nat
  next_customer_id : Nat
deriving DecidableEq, Repr

/-- A Python exception escaping one of the database functions. -/
inductive PyExc
  | typeError
  | nameError
deriving DecidableEq, Repr

/-- `add_product` (pos0.py lines 75-93): builds the barcode
`f"{name}_{price}_{...time...}"`, INSERTs the product, and returns the
barcode; a UNIQUE violation on `barcode` raises `ValueError` (modelled
as `none`) and inserts nothing. -/
def add_product (st : State) (name : String) (price : ℚ) (stock : Int)
    (category : String) (time : String) : State × Option String :=
  let barcode := name ++ "_" ++ toString price ++ "_" ++ time
  if st.products.any (fun p => p.barcode == barcode) then
    (st, none)
  else
    ({ st with
        products := st.products ++
          [{ id := st.next_product_id, name := name, price := price,
             stock := stock, category := category, barcode := barcode }],
        next_product_id := st.next_product_id + 1 },
     some barcode)

/-- `adjust_stock` (pos0.py lines 95-105):
`UPDATE products SET stock = ? WHERE id = ?` — an unconditional absolute
set, with no validation of the new value. -/
def adjust_stock (st : State) (product_id : Nat) (new_stock : Int) : State :=
  { st with
      products := st.products.map fun p =>
        if p.id = product_id then { p with stock := new_stock } else p }

/-- `apply_stock_adjust` (pos0.py lines 925-935): the UI wrapper around
`adjust_stock`; raises `ValueError` (returns `false`) and leaves the
store untouched when the new stock is negative. -/
def apply_stock_adjust (st : State) (product_id : Nat) (new_stock : Int) :
    State × Bool :=
  if new_stock < 0 then (st, false)
  else (adjust_stock st product_id new_stock, true)

/-- `delete_product` (pos0.py lines 107-119): first
`DELETE FROM sales WHERE product_id = ?`, then
`DELETE FROM products WHERE id = ?`; no existence check, no error on an
unknown id. -/
def delete_product (st : State) (product_id : Nat) : State :=
  { st with
      sales := st.sales.filter (fun s => s.product_id != product_id),
      products := st.products.filter (fun p => p.id != product_id) }

/-- `SELECT stock, name FROM products WHERE id = ?` followed by
`fetchone()` inside `record_sale` (pos0.py lines 145-146): the first
matching row as a positional tuple, or `none` when the id is unknown. -/
def fetchStockName (st : State) (product_id : Nat) : Option (Int × String) :=
  (st.products.find? (fun p => p.id == product_id)).map fun p => (p.stock, p.name)

/-- `result["stock"]` (pos0.py line 147): the cursor in `record_sale` is
created without a `row_factory`, so `result` is a plain tuple (or
`None`); subscripting either with a string raises `TypeError`. -/
def rowGetStock (_result : Option (Int × String)) : Except PyExc Int :=
  Except.error PyExc.typeError

/-- `result["name"]` (pos0.py line 147): same as `rowGetStock`. -/
def rowGetName (_result : Option (Int × String)) : Except PyExc String :=
  Except.error PyExc.typeError

/-- The stock-check/decrement loop of `record_sale` (pos0.py lines
144-156), threading the store and the running `total_sale`.  Returns
`none` for the early `conn.rollback(); return None, None` taken when a
line's stock is insufficient, and `Except.error` when a Python
exception escapes an iteration. -/
def saleCheckLoop (st : State) (cart : List (Nat × Int × ℚ))
    (total_sale : ℚ) : Except PyExc (Option (State × ℚ)) :=
  match cart with
  | [] => Except.ok (some (st, total_sale))
  | (product_id, quantity, price) :: rest =>
      let result := fetchStockName st product_id
      match rowGetStock result with
      | Except.error e => Except.error e
      | Except.ok stock =>
      match rowGetName result with
      | Except.error e => Except.error e
      | Except.ok _name =>
      if stock < quantity then
        Except.ok none
      else
        let total := price * (quantity : ℚ)
        let st' : State :=
          { st with
              products := st.products.map fun p =>
                if p.id = product_id then { p with stock := p.stock - quantity }
                else p }
        saleCheckLoop st' rest (total_sale + total)

/-- The insert loop of `record_sale` (pos0.py lines 158-160): one Sale
row per cart line, each carrying `total_sale / len(cart_items)` and
`discount / len(cart_items)`. -/
def insertSaleRows (st : State) (cart : List (Nat × Int × ℚ)) (n : Nat)
    (total_sale discount : ℚ) (date : String) (staff_id : Nat)
    (payment_method : String) (customer_id : Option Nat) : State :=
  match cart with
  | [] => st
  | (product_id, quantity, _) :: rest =>
      let row : Sale :=
        { id := st.next_sale_id, product_id := product_id,
          quantity := quantity, total := total_sale / (n : ℚ),
          discount := discount / (n : ℚ), date := date,
          staff_id := staff_id, payment_method := payment_method,
          customer_id := customer_id }
      insertSaleRows
        { st with sales := st.sales ++ [row],
                  next_sale_id := st.next_sale_id + 1 }
        rest n total_sale discount date staff_id payment_method customer_id

/-- What a call to `record_sale` does besides mutating the store. -/
inductive RSOutcome
  | ok (netTotal : ℚ) (date : String)
  | sentinel
  | exc (e : PyExc)
deriving DecidableEq, Repr

/-- `record_sale` (pos0.py lines 136-167).  The try-block checks and
decrements stock line by line (`saleCheckLoop`), subtracts the discount,
inserts one Sale row per line (`insertSaleRows`) and commits, returning
`(total_sale, date)`.  The insufficient-stock early return rolls back
and yields `(None, None)` (`RSOutcome.sentinel`).  A Python exception
reaches the handler, which rolls back and then itself raises `NameError`
(line 166 references the never-imported `traceback` module), so the call
raises (`RSOutcome.exc`) with the store unchanged. -/
def record_sale (st : State) (cart : List (Nat × Int × ℚ)) (staff_id : Nat)
    (payment_method : String) (discount : ℚ) (customer_id : Option Nat)
    (date : String) : State × RSOutcome :=
  match saleCheckLoop st cart 0 with
  | Except.error _ => (st, RSOutcome.exc PyExc.nameError)
  | Except.ok none => (st, RSOutcome.sentinel)
  | Except.ok (some (st', total)) =>
      let total_sale := total - discount
      let st'' := insertSaleRows st' cart cart.length total_sale discount
        date staff_id payment_method customer_id
      (st'', RSOutcome.ok total_sale date)

/-- `add_customer` (pos0.py lines 169-188): INSERT; on the UNIQUE-email
`IntegrityError`, re-SELECT the existing row's id and return it,
leaving the table untouched. -/
def add_customer (st : State) (name email : String) (points : Int)
    (age : Option Int) : State × Nat :=
  match st.customers.find? (fun c => c.email == email) with
  | some c => (st, c.id)
  | none =>
      ({ st with
          customers := st.customers ++
            [{ id := st.next_customer_id, name := name, email := email,
               points := points, age := age }],
          next_customer_id := st.next_customer_id + 1 },
       st.next_customer_id)

/-- `process_return` (pos0.py lines 1064-1082, database portion):
`DELETE FROM sales WHERE id = ?` and
`UPDATE products SET stock = stock + ? WHERE id = ?`, using the selected
sale row's quantity and product id. -/
def process_return (st : State) (sale_id : Nat) : State :=
  match st.sales.find? (fun s => s.id == sale_id) with
  | none => st
  | some s =>
      { st with
          sales := st.sales.filter (fun r => r.id != sale_id),
          products := st.products.map fun p =>
            if p.id = s.product_id then { p with stock := p.stock + s.quantity }
            else p }

/-- `SUM(total)` over a list of sale rows (with SQL's NULL-on-empty
already collapsed to `0`, as the callers do via `or 0`). -/
def sumTotals (l : List Sale) : ℚ := (l.map Sale.total).sum

/-- `SUM(quantity)` over a list of sale rows (NULL-on-empty collapsed
to `0`). -/
def sumQuantities (l : List Sale) : Int := (l.map Sale.quantity).sum

/-- `get_sales_summary` (pos0.py lines 200-221).  The three named
periods filter `WHERE date >= start_date` (dates are `"%Y-%m-%d
%H:%M:%S"` strings compared lexicographically, as SQLite compares
TEXT); `start_date` for each period is passed in, since the source
derives it from `datetime.now()`.  Any other period string falls into
the `else` branch and aggregates the whole table.  `result[0] or 0` /
`result[1] or 0` turn SQL NULL into `0`. -/
def get_sales_summary (sales : List Sale)
    (todayStart weekStart monthStart : String) (period : String) :
    ℚ × Int :=
  if period = "today" then
    let l := sales.filter fun s => decide (todayStart ≤ s.date)
    (sumTotals l, sumQuantities l)
  else if period = "week" then
    let l := sales.filter fun s => decide (weekStart ≤ s.date)
    (sumTotals l, sumQuantities l)
  else if period = "month" then
    let l := sales.filter fun s => decide (monthStart ≤ s.date)
    (sumTotals l, sumQuantities l)
  else
    (sumTotals sales, sumQuantities sales)

/-- `get_avg_sale_value` (pos0.py lines 223-244): `AVG(total)` over the
same windows; SQL's `AVG` is NULL on an empty set, and `result[0] or 0`
turns that into `0`. -/
def get_avg_sale_value (sales : List Sale)
    (todayStart weekStart monthStart : String) (period : String) : ℚ :=
  let l :=
    if period = "today" then sales.filter fun s => decide (todayStart ≤ s.date)
    else if period = "week" then sales.filter fun s => decide (weekStart ≤ s.date)
    else if period = "month" then sales.filter fun s => decide (monthStart ≤ s.date)
    else sales
  if l.isEmpty then 0 else sumTotals l / (l.length : ℚ)

/-- The rows of the sales table that fall inside a reporting window:
the shared `WHERE date >= start_date` dispatch of `get_sales_summary`
and `get_avg_sale_value` (pos0.py lines 203-217 and 226-240). -/
def windowRows (sales : List Sale) (todayStart weekStart monthStart : String)
    (period : String) : List Sale :=
  if period = "today" then sales.filter fun s => decide (todayStart ≤ s.date)
  else if period = "week" then sales.filter fun s => decide (weekStart ≤ s.date)
  else if period = "month" then sales.filter fun s => decide (monthStart ≤ s.date)
  else sales

/-- Both aggregation queries are the corresponding fold over exactly
the rows in the requested window. -/
theorem summary_avg_of_window (sales : List Sale) (ts ws ms period : String) :
    get_sales_summary sales ts ws ms period
      = (sumTotals (windowRows sales ts ws ms period),
         sumQuantities (windowRows sales ts ws ms period)) ∧
    get_avg_sale_value sales ts ws ms period
      = (if (windowRows sales ts ws ms period).isEmpty then 0
         else sumTotals (windowRows sales ts ws ms period)
              / ((windowRows sales ts ws ms period).length : ℚ)) := by
  unfold get_sales_summary get_avg_sale_value windowRows
  split_ifs <;> simp_all

/-! ## Sequences of core operations (for the stock invariant) -/

/-- One core mutating operation, with its arguments (operation results
are dropped; only the effect on the store matters here). -/
inductive Op
  | addProduct (name : String) (price : ℚ) (stock : Int) (category : String)
      (time : String)
  | adjustStock (product_id : Nat) (new_stock : Int)
  | deleteProduct (product_id : Nat)
  | recordSale (cart : List (Nat × Int × ℚ)) (staff_id : Nat)
      (payment_method : String) (discount : ℚ) (customer_id : Option Nat)
      (date : String)
  | processReturn (sale_id : Nat)

/-- The store after one operation. -/
def step (st : State) : Op → State
  | Op.addProduct n pr s c t => (add_product st n pr s c t).1
  | Op.adjustStock pid ns => adjust_stock st pid ns
  | Op.deleteProduct pid => delete_product st pid
  | Op.recordSale cart sid pm d cu date => (record_sale st cart sid pm d cu date).1
  | Op.processReturn sid => process_return st sid

/-- The store after a sequence of operations. -/
def run (st : State) : List Op → State
  | [] => st
  | op :: ops => run (step st op) ops

/-- Every product's stock is non-negative. -/
def StockNonneg (st : State) : Prop := ∀ p ∈ st.products, 0 ≤ p.stock

/-- Every sale row's quantity is non-negative. -/
def QtyNonneg (st : State) : Prop := ∀ s ∈ st.sales, 0 ≤ s.quantity

instance (st : State) : Decidable (StockNonneg st) :=
  List.decidableBAll _ st.products

instance (st : State) : Decidable (QtyNonneg st) :=
  List.decidableBAll _ st.sales

/-- The stock-valued arguments supplied to an operation are
non-negative (`add_product`'s initial stock, `adjust_stock`'s new
value); the other operations take no stock argument. -/
def stockArgsOk : Op → Bool
  | Op.addProduct _ _ s _ _ => decide (0 ≤ s)
  | Op.adjustStock _ ns => decide (0 ≤ ns)
  | _ => true

/-- `record_sale` never changes the store: an empty cart skips both
loops, and on a non-empty cart the first stock re-read raises, so the
transaction is rolled back. -/
theorem record_sale_fst (st : State) (cart : List (Nat × Int × ℚ))
    (staff_id : Nat) (pm : String) (discount : ℚ) (cust : Option Nat)
    (date : String) :
    (record_sale st cart staff_id pm discount cust date).1 = st := by
  cases cart with
  | nil => rfl
  | cons x rest => rcases x with ⟨pid, qty, price⟩; rfl

/-- One operation preserves non-negative stocks and quantities, given
non-negative stock arguments. -/
theorem step_preserves (st : State) (op : Op)
    (hS : StockNonneg st) (hQ : QtyNonneg st) (hop : stockArgsOk op = true) :
    StockNonneg (step st op) ∧ QtyNonneg (step st op) := by
  cases op with
  | addProduct n pr s c t =>
      simp only [stockArgsOk, decide_eq_true_eq] at hop
      constructor
      · intro p hp
        simp only [step, add_product, apply_ite Prod.fst] at hp
        split at hp
        · exact hS p hp
        · rcases List.mem_append.mp hp with h | h
          · exact hS p h
          · simp only [List.mem_singleton] at h
            subst h
            exact hop
      · intro r hr
        simp only [step, add_product, apply_ite Prod.fst] at hr
        split at hr
        · exact hQ r hr
        · exact hQ r hr
  | adjustStock pid ns =>
      simp only [stockArgsOk, decide_eq_true_eq] at hop
      constructor
      · intro p hp
        simp only [step, adjust_stock] at hp
        rcases List.mem_map.mp hp with ⟨q, hq, rfl⟩
        by_cases h : q.id = pid
        · simpa [h] using hop
        · simpa [h] using hS q hq
      · intro r hr
        exact hQ r hr
  | deleteProduct pid =>
      constructor
      · intro p hp
        exact hS p (List.mem_filter.mp hp).1
      · intro r hr
        exact hQ r (List.mem_filter.mp hr).1
  | recordSale cart sid pm d cu date =>
      have h : step st (Op.recordSale cart sid pm d cu date) = st :=
        record_sale_fst st cart sid pm d cu date
      rw [h]; exact ⟨hS, hQ⟩
  | processReturn sid =>
      cases hfind : st.sales.find? (fun r => r.id == sid) with
      | none =>
          have h : step st (Op.processReturn sid) = st := by
            simp [step, process_return, hfind]
          rw [h]; exact ⟨hS, hQ⟩
      | some srow =>
          have hq0 : 0 ≤ srow.quantity :=
            hQ srow (List.mem_of_find?_eq_some hfind)
          constructor
          · intro p hp
            simp only [step, process_return, hfind] at hp
            rcases List.mem_map.mp hp with ⟨q, hq, rfl⟩
            by_cases h : q.id = srow.product_id
            · have hq' := hS q hq
              simp only [h, if_pos rfl]
              exact add_nonneg hq' hq0
            · simpa [h] using hS q hq
          · intro r hr
            simp only [step, process_return, hfind] at hr
            exact hQ r (List.mem_filter.mp hr).1

/-- A sequence of operations with non-negative stock arguments preserves
non-negative stocks and quantities. -/
theorem run_preserves (st : State) (ops : List Op)
    (hS : StockNonneg st) (hQ : QtyNonneg st)
    (hops : ops.all stockArgsOk = true) :
    StockNonneg (run st ops) ∧ QtyNonneg (run st ops) := by
  induction ops generalizing st with
  | nil => exact ⟨hS, hQ⟩
  | cons op ops ih =>
      simp only [List.all_cons, Bool.and_eq_true] at hops
      have h := step_preserves st op hS hQ hops.1
      exact ih (step st op) h.1 h.2 hops.2

/-! ## Concrete example stores -/

/-- A store with one product: Pen, price 5.00, stock 10. -/
def penStore : State :=
  { products := [{ id := 1, name := "Pen", price := 5, stock := 10,
                   category := "Stationery", barcode := "Pen_5_091500" }],
    sales := [], customers := [],
    next_product_id := 2, next_sale_id := 1, next_customer_id := 1 }

/-- A store with one product whose stock is almost exhausted. -/
def lowStore : State :=
  { products := [{ id := 1, name := "Pen", price := 2, stock := 1,
                   category := "Stationery", barcode := "Pen_2_091500" }],
    sales := [], customers := [],
    next_product_id := 2, next_sale_id := 1, next_customer_id := 1 }

/-- A store with two well-stocked products. -/
def twoStore : State :=
  { products := [{ id := 1, name := "Pen", price := 5, stock := 10,
                   category := "Stationery", barcode := "Pen_5_091500" },
                 { id := 2, name := "Notebook", price := 3, stock := 4,
                   category := "Stationery", barcode := "Notebook_3_091501" }],
    sales := [], customers := [],
    next_product_id := 3, next_sale_id := 1, next_customer_id := 1 }

/-- A store holding a sale row that references product id 7 while no
product with id 7 exists. -/
def orphanStore : State :=
  { products := [],
    sales := [{ id := 1, product_id := 7, quantity := 2, total := 10,
                discount := 0, date := "2026-01-01 09:00:00", staff_id := 1,
                payment_method := "Cash", customer_id := none }],
    customers := [],
    next_product_id := 1, next_sale_id := 2, next_customer_id := 1 }

/-- A store with one product and one sale row referencing it. -/
def shopStore : State :=
  { products := [{ id := 1, name := "Pen", price := 5, stock := 8,
                   category := "Stationery", barcode := "Pen_5_091500" }],
    sales := [{ id := 1, product_id := 1, quantity := 2, total := 10,
                discount := 0, date := "2026-01-01 09:00:00", staff_id := 1,
                payment_method := "Cash", customer_id := none }],
    customers := [],
    next_product_id := 2, next_sale_id := 2, next_customer_id := 1 }

/-- One committed Sale row used by the reporting examples. -/
def exSales : List Sale :=
  [{ id := 1, product_id := 1, quantity := 2, total := 10, discount := 0,
     date := "2026-01-01 09:00:00", staff_id := 1, payment_method := "Cash",
     customer_id := none }]

/-! ## Claims -/

/-- C1: checkout on a cart line whose requested quantity exceeds the
available stock leaves every product's stock unchanged and inserts no
Sale row — but `record_sale` raises instead of returning the
`(None, None)` failure sentinel: the stock re-read at line 147 indexes
a plain tuple with `"stock"` (`TypeError`), and the handler's reference
to the never-imported `traceback` module raises `NameError`, so the
insufficient-stock branch at lines 149-152 is unreachable. -/
theorem record_sale_insufficient_stock_raises :
    record_sale lowStore [(1, 5, 2)] 1 "Cash" 0 none "2026-01-02 10:00:00"
      = (lowStore, RSOutcome.exc PyExc.nameError) ∧
    RSOutcome.exc PyExc.nameError ≠ RSOutcome.sentinel :=
  ⟨rfl, fun h => RSOutcome.noConfusion h⟩

/-- C4: the happy-path scenario (Pen, price 5.00, stock 10; cart
`[(Pen, qty 2)]`, discount 0) does not succeed in the code as written:
`record_sale` raises (`TypeError` at `result["stock"]`, then
`NameError` in the handler), the store is left with Pen's stock still
10 and no Sale row, and no `(10.00, timestamp)` result is returned. -/
theorem record_sale_happy_path_raises :
    record_sale penStore [(1, 2, 5)] 1 "Cash" 0 none "2026-01-02 10:00:00"
      = (penStore, RSOutcome.exc PyExc.nameError) ∧
    (∀ net : ℚ, ∀ date : String,
      RSOutcome.exc PyExc.nameError ≠ RSOutcome.ok net date) :=
  ⟨rfl, fun _ _ h => RSOutcome.noConfusion h⟩

/-- C3: no cart with at least one line is ever committed, so the
allocation/reconciliation property has no instance to hold of: even
with ample stock on every line, `record_sale` raises at the first stock
re-read and inserts no Sale rows.  The allocation arithmetic at lines
153-161 (each row carrying `total_sale / len(cart_items)` and
`discount / len(cart_items)`) is dead code. -/
theorem record_sale_commit_unreachable :
    record_sale twoStore [(1, 2, 5), (2, 1, 3)] 1 "Card" 1 none
        "2026-01-02 10:00:00"
      = (twoStore, RSOutcome.exc PyExc.nameError) ∧
    (record_sale twoStore [(1, 2, 5), (2, 1, 3)] 1 "Card" 1 none
        "2026-01-02 10:00:00").1.sales = [] :=
  ⟨rfl, rfl⟩

/-- C2 counterexample: starting from a store where every stock is
non-negative, a single `adjust_stock` call with a negative new value
(which the core accepts unvalidated) leaves a product with stock −1. -/
theorem stock_nonneg_cex :
    StockNonneg penStore ∧
    ¬ StockNonneg (run penStore [Op.adjustStock 1 (-1)]) := by
  decide

/-- C2 (amended): starting from a store where every product's stock and
every sale row's quantity is non-negative, any sequence of core
operations whose stock-valued arguments (`add_product`'s initial stock,
`adjust_stock`'s new value) are non-negative keeps every product's
stock non-negative. -/
theorem stock_nonneg_preserved (st : State) (ops : List Op)
    (hS : StockNonneg st) (hQ : QtyNonneg st)
    (hops : ops.all stockArgsOk = true) :
    StockNonneg (run st ops) :=
  (run_preserves st ops hS hQ hops).1

/-- Witness for `stock_nonneg_preserved` at a concrete store and
operation sequence. -/
theorem stock_nonneg_preserved_witness :
    StockNonneg (run penStore
      [Op.adjustStock 1 3, Op.processReturn 1, Op.deleteProduct 1]) :=
  stock_nonneg_preserved penStore
    [Op.adjustStock 1 3, Op.processReturn 1, Op.deleteProduct 1]
    (by decide) (by decide) (by decide)

/-- C5 counterexample: `adjust_stock` called with new stock −1 on a
product whose stock is 10 does not fail and does not leave the stock
unchanged — it stores −1 (the negative-value check lives only in the
UI wrapper). -/
theorem adjust_stock_negative_cex :
    (adjust_stock penStore 1 (-1)).products
      = [{ id := 1, name := "Pen", price := 5, stock := -1,
           category := "Stationery", barcode := "Pen_5_091500" }] ∧
    adjust_stock penStore 1 (-1) ≠ penStore :=
  ⟨rfl, by decide⟩

/-- C5 (amended): for a negative new stock value, the UI wrapper
`apply_stock_adjust` rejects it (raising `ValueError`, here `false`)
and leaves the store unchanged, while the core `adjust_stock` itself
performs the unvalidated absolute set, storing the negative value. -/
theorem adjust_stock_no_validation (st : State) (pid : Nat) (v : Int)
    (h : v < 0) :
    apply_stock_adjust st pid v = (st, false) ∧
    (adjust_stock st pid v).products
      = st.products.map
          (fun p => if p.id = pid then { p with stock := v } else p) := by
  refine ⟨?_, rfl⟩
  simp [apply_stock_adjust, h]

/-- Witness for `adjust_stock_no_validation` at new stock −1. -/
theorem adjust_stock_no_validation_witness :
    apply_stock_adjust penStore 1 (-1) = (penStore, false) ∧
    (adjust_stock penStore 1 (-1)).products
      = penStore.products.map
          (fun p => if p.id = 1 then { p with stock := -1 } else p) :=
  adjust_stock_no_validation penStore 1 (-1) (by decide)

/-- C6: `add_customer` is idempotent on the email key: a second call
with the same email — even with a different name, points or age —
returns the same customer id and leaves the customer table (and the
whole store) exactly as the first call left it. -/
theorem add_customer_idempotent (st : State) (name1 name2 email : String)
    (points1 points2 : Int) (age1 age2 : Option Int) :
    add_customer (add_customer st name1 email points1 age1).1
        name2 email points2 age2
      = add_customer st name1 email points1 age1 := by
  unfold add_customer
  cases hfind : st.customers.find? (fun c => c.email == email) with
  | some c => simp [hfind]
  | none => simp [hfind, List.find?_append]

/-- C7: whenever the sales log contains no rows in the requested
window — whether the log is empty or all its rows fall outside the
window's date filter — `get_sales_summary` returns `(0, 0)` and
`get_avg_sale_value` returns `0`, never an error; this holds for
`"today"`, `"week"`, `"month"`, `"all"` and in fact any period
string. -/
theorem no_rows_in_window_aggregates_to_zero (sales : List Sale)
    (ts ws ms period : String)
    (h : windowRows sales ts ws ms period = []) :
    get_sales_summary sales ts ws ms period = (0, 0) ∧
    get_avg_sale_value sales ts ws ms period = 0 := by
  obtain ⟨h1, h2⟩ := summary_avg_of_window sales ts ws ms period
  rw [h] at h1 h2
  refine ⟨?_, ?_⟩
  · rw [h1]; simp [sumTotals, sumQuantities]
  · rw [h2]; simp

/-- Witness for `no_rows_in_window_aggregates_to_zero` on a non-empty
log whose only row (dated 2026-01-01) lies before the `"today"` window
start 2026-02-01. -/
theorem no_rows_in_window_aggregates_to_zero_witness :
    get_sales_summary exSales "2026-02-01 00:00:00" "w" "m" "today" = (0, 0) ∧
    get_avg_sale_value exSales "2026-02-01 00:00:00" "w" "m" "today" = 0 :=
  no_rows_in_window_aggregates_to_zero exSales "2026-02-01 00:00:00" "w" "m"
    "today" (by simp [windowRows, exSales]; decide)

/-- C8 counterexample: `record_sale` on an empty cart with discount 5
does not yield the `(None, None)` failure sentinel — it commits the
(empty) transaction and returns `(0 - 5, date)`, a `(netTotal,
timestamp)`-shaped result with the negated discount as its total. -/
theorem record_sale_empty_cart_cex :
    record_sale penStore [] 1 "Cash" 5 none "2026-01-02 10:00:00"
      = (penStore, RSOutcome.ok (0 - 5) "2026-01-02 10:00:00") ∧
    RSOutcome.ok ((0 : ℚ) - 5) "2026-01-02 10:00:00" ≠ RSOutcome.sentinel :=
  ⟨rfl, fun h => RSOutcome.noConfusion h⟩

/-- C8 (amended): `record_sale` on an empty cart inserts no Sale rows
and leaves every product's stock (indeed the whole store) unchanged,
but returns `(0 - discount, timestamp)` — a success-shaped result —
rather than the `(None, None)` failure sentinel. -/
theorem record_sale_empty_cart (st : State) (staff_id : Nat) (pm : String)
    (discount : ℚ) (cust : Option Nat) (date : String) :
    record_sale st [] staff_id pm discount cust date
      = (st, RSOutcome.ok (0 - discount) date) :=
  rfl

/-- C9 counterexample: deleting a product id that is absent from the
products table is not a no-op on the sales table — `delete_product`
first runs `DELETE FROM sales WHERE product_id = ?`, which removes any
sale row referencing that id. -/
theorem delete_product_unknown_cex :
    (∀ p ∈ orphanStore.products, p.id ≠ 7) ∧
    delete_product orphanStore 7 ≠ orphanStore := by
  decide

/-- C9 (amended): for a product id absent from the products table,
`delete_product` raises no error (it is a total operation with no
existence check and no `NotFound`) and leaves the products table
unchanged, but it deletes every sales row referencing that id: the
sales table is unchanged exactly when no sale row references it. -/
theorem delete_product_unknown (st : State) (pid : Nat)
    (h : st.products.all (fun p => p.id != pid) = true) :
    delete_product st pid
      = { st with
            sales := st.sales.filter (fun s => s.product_id != pid) } := by
  have hp : st.products.filter (fun p => p.id != pid) = st.products :=
    List.filter_eq_self.mpr (List.all_eq_true.mp h)
  simp [delete_product, hp]

/-- Witness for `delete_product_unknown` on a store whose only product
has id 1 and whose only sale references product 1, deleting id 7. -/
theorem delete_product_unknown_witness :
    delete_product shopStore 7
      = { shopStore with
            sales := shopStore.sales.filter (fun s => s.product_id != 7) } :=
  delete_product_unknown shopStore 7 (by decide)

/-- C10: any period string other than `"today"`, `"week"` and
`"month"` — not only `"all"` — falls into the `else` branch of
`get_sales_summary` and yields the all-time totals; the argument is
never rejected. -/
theorem unknown_period_is_all_time (sales : List Sale)
    (ts ws ms period : String)
    (h1 : period ≠ "today") (h2 : period ≠ "week") (h3 : period ≠ "month") :
    get_sales_summary sales ts ws ms period
      = (sumTotals sales, sumQuantities sales) ∧
    get_sales_summary sales ts ws ms period
      = get_sales_summary sales ts ws ms "all" := by
  unfold get_sales_summary
  simp [h1, h2, h3]

/-- Witness for `unknown_period_is_all_time` at the period string
`"yearly"`. -/
theorem unknown_period_is_all_time_witness :
    get_sales_summary exSales "a" "b" "c" "yearly"
      = (sumTotals exSales, sumQuantities exSales) ∧
    get_sales_summary exSales "a" "b" "c" "yearly"
      = get_sales_summary exSales "a" "b" "c" "all" :=
  unknown_period_is_all_time exSales "a" "b" "c" "yearly"
    (by decide) (by decide) (by decide)
